import Mathlib

/-!
Shallow embedding of the file-submission component in
src/label-data-organizer-frontend/src/components/FileUpload.jsx.

The component keeps four pieces of state (file, isUploading, error,
successMessage), validates a selected file by declared media type, and drives
one submit-and-receive cycle against a remote endpoint.  Network transport and
JSON parsing are external library calls; their settled result is passed in as
an explicit Outcome value, and everything the component itself computes
(validation, message handling, the content-disposition filename regex, the
error-body field extraction, the busy flag discipline) is embedded as
executable Lean functions.
-/

set_option autoImplicit false

namespace FileUpload

/-- Candidate file as the component sees it: the declared media type (the JS
File.type attribute) and a display name.  The binary content plays no role in
any control flow of the component, so it is not modelled. -/
structure FileObj where
  type : String
  name : String
deriving Repr, DecidableEq

/-- Error signal as stored by setError: a message plus an optional details
field.  The value none models a JS object literal written without a details
key (as in the validation-reject and no-candidate branches); some l models a
present array. -/
structure ErrorSig where
  message : String
  details : Option (List String)
deriving Repr, DecidableEq

/-- Detail list as observed: the ErrorMessage component declares a default
parameter details = [], so an absent details field renders as the empty
list. -/
def ErrorSig.shownDetails (e : ErrorSig) : List String := e.details.getD []

/-- Component state: the staged file, the busy flag, and the two message
signals, mirroring the four useState hooks that the core logic touches. -/
structure UploadState where
  file : Option FileObj
  isUploading : Bool
  error : ErrorSig
  successMessage : String
deriving Repr, DecidableEq

/-- Initial useState values of the component. -/
def initialState : UploadState :=
  { file := none
    isUploading := false
    error := { message := "", details := some [] }
    successMessage := "" }

/-- clearMessages resets the error signal (with an explicit empty details
array) and the success message. -/
def clearMessages (s : UploadState) : UploadState :=
  { s with error := { message := "", details := some [] }, successMessage := "" }

/-- Accepted media-type test from validateAndSetFile. -/
def acceptedType (t : String) : Bool :=
  t = "application/vnd.openxmlformats-officedocument.spreadsheetml.sheet" ||
  t = "application/vnd.ms-excel" ||
  t = "text/csv"

/-- Fixed rejection message used by validateAndSetFile. -/
def invalidTypeMsg : String :=
  "Invalid file type. Please upload an Excel (.xlsx, .xls) or CSV (.csv) file."

/-- validateAndSetFile: clear both messages, then either store an accepted
file as the new candidate, or set the fixed rejection message (details key
absent) and clear the candidate.  A missing selection takes the reject
branch because the JS guard requires selectedFile to be truthy. -/
def validateAndSetFile (s : UploadState) (selectedFile : Option FileObj) :
    UploadState :=
  let s1 := clearMessages s
  match selectedFile with
  | some f =>
    if acceptedType f.type then
      { s1 with file := some f }
    else
      { s1 with error := { message := invalidTypeMsg, details := none }, file := none }
  | none =>
    { s1 with error := { message := invalidTypeMsg, details := none }, file := none }

/-- Line terminators, which the JS dot (without the s flag) does not match. -/
def lineTerm (c : Char) : Bool :=
  c = '\n' || c = '\r' || c = '\u2028' || c = '\u2029'

/-- Case-insensitive match of a literal pattern against the head of the
input; on success returns the input with the literal consumed. -/
def dropCiLit : List Char → List Char → Option (List Char)
  | [], cs => some cs
  | _ :: _, [] => none
  | p :: ps, c :: cs => if c.toLower = p then dropCiLit ps cs else none

/-- Capture group of the pattern at one candidate position, applied to the
text after the literal: the first optional quote is greedy, so a leading
double quote is consumed first; the dot-plus group then greedily takes every
following non-terminator character (including any closing quote, since the
trailing optional quote happily matches the empty string); if nothing is
left for the dot-plus, the engine backtracks and the group starts at the
quote itself. -/
def groupAt (rest : List Char) : Option (List Char) :=
  match rest with
  | '"' :: rest2 =>
    let g := rest2.takeWhile (fun c => !lineTerm c)
    if g.isEmpty then
      let g2 := rest.takeWhile (fun c => !lineTerm c)
      if g2.isEmpty then none else some g2
    else some g
  | _ =>
    let g := rest.takeWhile (fun c => !lineTerm c)
    if g.isEmpty then none else some g

/-- Leftmost match of the content-disposition filename pattern over the
header text, returning the capture group. -/
def findFilenameMatch : List Char → Option (List Char)
  | [] => none
  | c :: cs =>
    match dropCiLit ['f', 'i', 'l', 'e', 'n', 'a', 'm', 'e', '='] (c :: cs) with
    | some rest =>
      match groupAt rest with
      | some g => some g
      | none => findFilenameMatch cs
    | none => findFilenameMatch cs

/-- Resolved save name in handleUpload: processed_data.xlsx by default,
replaced by the regex capture when the content-disposition header is truthy
(present and non-empty) and the pattern matches.  The JS length check on the
match result always holds for a one-group pattern, so it adds nothing. -/
def extractFileName (contentDisposition : Option String) : String :=
  match contentDisposition with
  | none => "processed_data.xlsx"
  | some cd =>
    if cd = "" then "processed_data.xlsx"
    else
      match findFilenameMatch cd.toList with
      | some g => String.mk g
      | none => "processed_data.xlsx"

/-- Parsed JSON error body restricted to the two recognized fields.  The value
none models an absent (or null) field; some "" models a message that is
present but empty, which the JS or-operator also treats as falsy. -/
structure ErrJson where
  message : Option String
  details : Option (List String)
deriving Repr, DecidableEq

/-- Failure shapes that reach the catch block: an error response whose data is
a Blob, together with the result of reading it as text and JSON-parsing it
(none when either step throws), or anything else (no response object at all,
or response data that is not a Blob). -/
inductive FailureData where
  | blobBody (parsed : Option ErrJson)
  | noBlobBody
deriving Repr, DecidableEq

/-- Headers of a 2xx response that the success branch reads. -/
structure SuccessHeaders where
  contentType : String
  contentDisposition : Option String
deriving Repr, DecidableEq

/-- Settled transport outcome of the post call. -/
inductive Outcome where
  | ok (h : SuccessHeaders)
  | err (fd : FailureData)
deriving Repr, DecidableEq

/-- Error signal computed in the catch block: generic fallback unless the body
is a Blob whose text parses as JSON, in which case the message field is taken
when truthy (falling back to the processing message) and the details field
when present (falling back to the empty array, which is here stored as an
explicit empty list). -/
def decodeError : FailureData → ErrorSig
  | .noBlobBody => { message := "An unexpected error occurred.", details := some [] }
  | .blobBody none => { message := "An unexpected error occurred.", details := some [] }
  | .blobBody (some j) =>
    { message :=
        match j.message with
        | some m => if m = "" then "An error occurred during processing." else m
        | none => "An error occurred during processing."
      details := some (j.details.getD []) }

/-- Observable result of one handleUpload call: the final component state,
whether the post was issued, the resolved save name when a download was
triggered, and the value of the busy flag while the request was in flight
(when no request was made the flag is untouched, so the current value is
reported). -/
structure SubmitResult where
  finalState : UploadState
  networkCalled : Bool
  download : Option String
  busyDuring : Bool
deriving Repr, DecidableEq

/-- handleUpload: if no candidate is staged, set the select-a-file error
(details key absent) and return at once; otherwise clear both messages, raise
the busy flag, issue the post, and either trigger the download under the
resolved name, set the success message and drop the candidate, or decode the
failure into the error signal.  The finally clause lowers the busy flag on
every path that made a request. -/
def handleUpload (s : UploadState) (outcome : Outcome) : SubmitResult :=
  match s.file with
  | none =>
    { finalState :=
        { s with error := { message := "Please select a file first.", details := none } }
      networkCalled := false
      download := none
      busyDuring := s.isUploading }
  | some _ =>
    let s1 := { clearMessages s with isUploading := true }
    match outcome with
    | .ok h =>
      { finalState :=
          { s1 with
            successMessage := "File processed and download started!"
            file := none
            isUploading := false }
        networkCalled := true
        download := some (extractFileName h.contentDisposition)
        busyDuring := true }
    | .err fd =>
      { finalState := { s1 with error := decodeError fd, isUploading := false }
        networkCalled := true
        download := none
        busyDuring := true }

/-- States reachable from the initial state by any sequence of validations
and submissions. -/
inductive Reachable : UploadState → Prop
  | init : Reachable initialState
  | validate (s : UploadState) (sf : Option FileObj) :
      Reachable s → Reachable (validateAndSetFile s sf)
  | upload (s : UploadState) (o : Outcome) :
      Reachable s → Reachable ((handleUpload s o).finalState)

/-- Concrete CSV file used by the witnesses. -/
def csvFile : FileObj := { type := "text/csv", name := "data.csv" }

/-- Concrete reachable state with a staged candidate, used by the
witnesses. -/
def stagedState : UploadState := validateAndSetFile initialState (some csvFile)

/-- Invariant over reachable states: whenever a candidate is staged, the
success message is empty (a success both sets the message and drops the
candidate; every other path that keeps a candidate clears the message). -/
theorem reachable_file_success_empty (s : UploadState) (hs : Reachable s) :
    s.file ≠ none → s.successMessage = "" := by
  induction hs with
  | init => intro h; exact absurd rfl h
  | validate s sf _ _ =>
    intro h
    cases sf with
    | none => simp [validateAndSetFile, clearMessages] at h
    | some g =>
      by_cases hg : acceptedType g.type
      · simp [validateAndSetFile, clearMessages, hg]
      · simp [validateAndSetFile, clearMessages, hg] at h
  | upload s o _ _ =>
    intro h
    cases hsf : s.file with
    | none => simp [handleUpload, hsf] at h
    | some g =>
      cases o with
      | ok hd => simp [handleUpload, hsf] at h
      | err fd => simp [handleUpload, hsf, clearMessages]

/-- C1: the code falls short of the claim.  On a 2xx response with header
Content-Disposition set to attachment; filename="report.xlsx", the greedy
dot-plus of the pattern also swallows the closing double quote (the trailing
optional quote matches the empty string), so the extraction resolves the
save name report.xlsx with a trailing double quote appended, not
report.xlsx as claimed.  The theorem evaluates both the extraction and the
full orchestrator at this failing input. -/
theorem C1_trailing_quote_eval :
    extractFileName (some "attachment; filename=\"report.xlsx\"") = "report.xlsx\"" ∧
    (handleUpload stagedState
        (.ok
          { contentType := "application/vnd.openxmlformats-officedocument.spreadsheetml.sheet"
            contentDisposition := some "attachment; filename=\"report.xlsx\"" })).download
      = some "report.xlsx\"" ∧
    "report.xlsx\"" ≠ "report.xlsx" := by
  refine ⟨by decide, by decide, by decide⟩

/-- C3: validateAndSetFile on a missing selection, or on a file whose declared
media type is outside the accepted set, sets exactly the fixed rejection
message with an empty rendered detail list, clears the candidate, and leaves
the success message cleared. -/
theorem C3_reject_fixed_message (s : UploadState) (sf : Option FileObj)
    (h : ∀ f, sf = some f → acceptedType f.type = false) :
    (validateAndSetFile s sf).error.message =
      "Invalid file type. Please upload an Excel (.xlsx, .xls) or CSV (.csv) file." ∧
    (validateAndSetFile s sf).error.shownDetails = [] ∧
    (validateAndSetFile s sf).file = none ∧
    (validateAndSetFile s sf).successMessage = "" := by
  cases sf with
  | none =>
    simp [validateAndSetFile, clearMessages, invalidTypeMsg, ErrorSig.shownDetails]
  | some g =>
    have hg := h g rfl
    simp [validateAndSetFile, clearMessages, hg, invalidTypeMsg, ErrorSig.shownDetails]

/-- C3 witness: instantiation at a PDF media type. -/
theorem C3_reject_fixed_message_witness :
    (∀ f : FileObj, (some { type := "application/pdf", name := "a.pdf" } : Option FileObj) = some f →
      acceptedType f.type = false) ∧
    ((validateAndSetFile initialState (some { type := "application/pdf", name := "a.pdf" })).error.message =
      "Invalid file type. Please upload an Excel (.xlsx, .xls) or CSV (.csv) file." ∧
     (validateAndSetFile initialState (some { type := "application/pdf", name := "a.pdf" })).error.shownDetails = [] ∧
     (validateAndSetFile initialState (some { type := "application/pdf", name := "a.pdf" })).file = none ∧
     (validateAndSetFile initialState (some { type := "application/pdf", name := "a.pdf" })).successMessage = "") :=
  ⟨fun f hf => by injection hf with h2; subst h2; decide,
   C3_reject_fixed_message initialState (some { type := "application/pdf", name := "a.pdf" })
     (fun f hf => by injection hf with h2; subst h2; decide)⟩

/-- C4: whenever a candidate is staged, handleUpload raises the busy flag for
the in-flight phase and lowers it on every settled outcome (success, blob
body with or without parsable JSON, or no blob body at all), so the flag
never stays raised after the call. -/
theorem C4_busy_discipline (s : UploadState) (o : Outcome) (f : FileObj)
    (hf : s.file = some f) :
    (handleUpload s o).busyDuring = true ∧
    (handleUpload s o).finalState.isUploading = false := by
  cases o with
  | ok hd => simp [handleUpload, hf, clearMessages]
  | err fd => simp [handleUpload, hf, clearMessages]

/-- C4 witness: instantiation at the staged CSV state and a transport failure
without a body. -/
theorem C4_busy_discipline_witness :
    stagedState.file = some csvFile ∧
    ((handleUpload stagedState (.err .noBlobBody)).busyDuring = true ∧
     (handleUpload stagedState (.err .noBlobBody)).finalState.isUploading = false) :=
  ⟨by decide, C4_busy_discipline stagedState (.err .noBlobBody) csvFile (by decide)⟩

/-- C5: handleUpload with no staged candidate sets exactly the
select-a-file-first error message, issues no network call, leaves the busy
flag untouched on both the in-flight reading and the final state, and its
result does not depend on any would-be transport outcome. -/
theorem C5_no_candidate_guard (s : UploadState) (o : Outcome)
    (hf : s.file = none) :
    (handleUpload s o).finalState.error.message = "Please select a file first." ∧
    (handleUpload s o).networkCalled = false ∧
    (handleUpload s o).finalState.isUploading = s.isUploading ∧
    (handleUpload s o).busyDuring = s.isUploading ∧
    (∀ o2 : Outcome, handleUpload s o = handleUpload s o2) := by
  refine ⟨?_, ?_, ?_, ?_, ?_⟩ <;> simp [handleUpload, hf]

/-- C5 witness: instantiation at the initial state. -/
theorem C5_no_candidate_guard_witness :
    initialState.file = none ∧
    ((handleUpload initialState (.err .noBlobBody)).finalState.error.message =
        "Please select a file first." ∧
     (handleUpload initialState (.err .noBlobBody)).networkCalled = false ∧
     (handleUpload initialState (.err .noBlobBody)).finalState.isUploading =
        initialState.isUploading ∧
     (handleUpload initialState (.err .noBlobBody)).busyDuring = initialState.isUploading ∧
     (∀ o2 : Outcome, handleUpload initialState (.err .noBlobBody) = handleUpload initialState o2)) :=
  ⟨by decide, C5_no_candidate_guard initialState (.err .noBlobBody) (by decide)⟩

/-- C9: every file whose declared media type is one of the three accepted
types is accepted: both messages end cleared and the file replaces the
candidate; the accepted set is exactly those three strings, and any file of
another type leaves no candidate staged. -/
theorem C9_accept_replaces_candidate (s : UploadState) (f : FileObj)
    (h : acceptedType f.type = true) :
    (validateAndSetFile s (some f)).file = some f ∧
    (validateAndSetFile s (some f)).error.message = "" ∧
    (validateAndSetFile s (some f)).successMessage = "" ∧
    (∀ t : String, acceptedType t = true ↔
      (t = "application/vnd.openxmlformats-officedocument.spreadsheetml.sheet" ∨
       t = "application/vnd.ms-excel" ∨ t = "text/csv")) ∧
    (∀ g : FileObj, acceptedType g.type = false →
      (validateAndSetFile s (some g)).file = none) := by
  refine ⟨?_, ?_, ?_, ?_, ?_⟩
  · simp [validateAndSetFile, clearMessages, h]
  · simp [validateAndSetFile, clearMessages, h]
  · simp [validateAndSetFile, clearMessages, h]
  · intro t; simp [acceptedType, or_assoc]
  · intro g hg; simp [validateAndSetFile, clearMessages, hg]

/-- C9 witness: instantiation at a CSV file over a state carrying a previous
candidate and stale messages. -/
theorem C9_accept_replaces_candidate_witness :
    acceptedType csvFile.type = true ∧
    ((validateAndSetFile stagedState (some csvFile)).file = some csvFile ∧
     (validateAndSetFile stagedState (some csvFile)).error.message = "" ∧
     (validateAndSetFile stagedState (some csvFile)).successMessage = "" ∧
     (∀ t : String, acceptedType t = true ↔
       (t = "application/vnd.openxmlformats-officedocument.spreadsheetml.sheet" ∨
        t = "application/vnd.ms-excel" ∨ t = "text/csv")) ∧
     (∀ g : FileObj, acceptedType g.type = false →
       (validateAndSetFile stagedState (some g)).file = none)) :=
  ⟨by decide, C9_accept_replaces_candidate stagedState csvFile (by decide)⟩

/-- C2 counterexample: starting from the reachable state left by a successful
submission (success message set, candidate dropped), a further submission
attempt takes the no-candidate guard, which sets the error message WITHOUT
clearing the success message, so after that call both signals are non-empty:
the claimed clearing at the start of a submission attempted with no Candidate
File does not happen. -/
theorem C2_both_messages_counterexample :
    ((handleUpload
        ((handleUpload (validateAndSetFile initialState (some csvFile))
            (.ok { contentType := "text/csv", contentDisposition := none })).finalState)
        (.err .noBlobBody)).finalState.error.message ≠ "") ∧
    ((handleUpload
        ((handleUpload (validateAndSetFile initialState (some csvFile))
            (.ok { contentType := "text/csv", contentDisposition := none })).finalState)
        (.err .noBlobBody)).finalState.successMessage ≠ "") := by
  decide

/-- C2 (amended): after every validation, from any state whatsoever, the
error and success messages are mutually exclusive and both are cleared at the
start (the result is unchanged when the prior messages are cleared first);
the same exclusivity and clearing hold after every submission attempted with
a Candidate File present; a submission attempted with no Candidate File
present instead sets the error message while leaving any prior success
message untouched, so both signals can be non-empty after it. -/
theorem C2_message_exclusivity (s s2 : UploadState) (sf : Option FileObj)
    (o : Outcome) (f : FileObj) (hf : s2.file = some f) :
    (¬ ((validateAndSetFile s sf).error.message ≠ "" ∧
        (validateAndSetFile s sf).successMessage ≠ "")) ∧
    validateAndSetFile s sf = validateAndSetFile (clearMessages s) sf ∧
    (¬ ((handleUpload s2 o).finalState.error.message ≠ "" ∧
        (handleUpload s2 o).finalState.successMessage ≠ "")) ∧
    handleUpload s2 o = handleUpload (clearMessages s2) o ∧
    (handleUpload { s with file := none } o).finalState.successMessage = s.successMessage := by
  refine ⟨?_, ?_, ?_, ?_, ?_⟩
  · cases sf with
    | none => simp [validateAndSetFile, clearMessages]
    | some g =>
      by_cases hg : acceptedType g.type <;>
        simp [validateAndSetFile, clearMessages, hg]
  · cases sf with
    | none => simp [validateAndSetFile, clearMessages]
    | some g =>
      by_cases hg : acceptedType g.type <;>
        simp [validateAndSetFile, clearMessages, hg]
  · cases o with
    | ok hd => simp [handleUpload, hf, clearMessages]
    | err fd => simp [handleUpload, hf, clearMessages]
  · cases o with
    | ok hd => simp [handleUpload, hf, clearMessages]
    | err fd => simp [handleUpload, hf, clearMessages]
  · simp [handleUpload]

/-- Concrete post-success state: the success message is set and the candidate
dropped, so a validation from here must clear a stale success message. -/
def doneState : UploadState :=
  (handleUpload stagedState
    (.ok { contentType := "text/csv", contentDisposition := none })).finalState

/-- C2 witness: the validation conjuncts are instantiated at the candidate-less
post-success state carrying a stale success message, the submission conjuncts
at the staged CSV state with a bodyless failure. -/
theorem C2_message_exclusivity_witness :
    stagedState.file = some csvFile ∧
    ((¬ ((validateAndSetFile doneState (some csvFile)).error.message ≠ "" ∧
         (validateAndSetFile doneState (some csvFile)).successMessage ≠ "")) ∧
     validateAndSetFile doneState (some csvFile) =
       validateAndSetFile (clearMessages doneState) (some csvFile) ∧
     (¬ ((handleUpload stagedState (.err .noBlobBody)).finalState.error.message ≠ "" ∧
         (handleUpload stagedState (.err .noBlobBody)).finalState.successMessage ≠ "")) ∧
     handleUpload stagedState (.err .noBlobBody) =
       handleUpload (clearMessages stagedState) (.err .noBlobBody) ∧
     (handleUpload { doneState with file := none } (.err .noBlobBody)).finalState.successMessage =
       doneState.successMessage) :=
  ⟨by decide,
   C2_message_exclusivity doneState stagedState (some csvFile) (.err .noBlobBody) csvFile
     (by decide)⟩

/-- C6 counterexample: a structured 4xx blob body that parses as JSON with a
present but empty message field is not surfaced verbatim: the JS or-operator
treats the empty string as falsy, so the processing fallback replaces it,
contradicting the claim that the error signal becomes exactly the message of
every valid-JSON body. -/
theorem C6_empty_message_counterexample :
    ((handleUpload stagedState
        (.err (.blobBody (some { message := some "", details := some [] })))).finalState.error.message =
      "An error occurred during processing.") ∧
    ((handleUpload stagedState
        (.err (.blobBody (some { message := some "", details := some [] })))).finalState.error.message ≠
      "") := by
  decide

/-- C6 (amended): for every failing submission whose blob body parses as
JSON, the two recognized fields are decoded independently of one another: a
present non-empty message is surfaced verbatim, a missing or empty message
falls back to the processing message, a present details array is surfaced
verbatim and in order, and missing details fall back to the empty list; in
particular the spec example body with message Bad rows and the one-element
detail list row 3 invalid is surfaced exactly. -/
theorem C6_structured_error_decode (s : UploadState) (f : FileObj)
    (j : ErrJson) (hf : s.file = some f) :
    (∀ m : String, j.message = some m → m ≠ "" →
      (handleUpload s (.err (.blobBody (some j)))).finalState.error.message = m) ∧
    ((j.message = none ∨ j.message = some "") →
      (handleUpload s (.err (.blobBody (some j)))).finalState.error.message =
        "An error occurred during processing.") ∧
    (∀ l : List String, j.details = some l →
      (handleUpload s (.err (.blobBody (some j)))).finalState.error.shownDetails = l) ∧
    (j.details = none →
      (handleUpload s (.err (.blobBody (some j)))).finalState.error.shownDetails = []) := by
  refine ⟨?_, ?_, ?_, ?_⟩
  · intro m hm hme
    simp [handleUpload, hf, clearMessages, decodeError, hm, hme]
  · rintro (hm | hm) <;>
      simp [handleUpload, hf, clearMessages, decodeError, hm]
  · intro l hd
    simp [handleUpload, hf, clearMessages, decodeError, hd, ErrorSig.shownDetails]
  · intro hd
    simp [handleUpload, hf, clearMessages, decodeError, hd, ErrorSig.shownDetails]

/-- C6 witness: instantiation at the Bad rows body of the spec example. -/
theorem C6_structured_error_decode_witness :
    stagedState.file = some csvFile ∧
    ((∀ m : String,
        ErrJson.message { message := some "Bad rows", details := some ["row 3 invalid"] } = some m →
        m ≠ "" →
        (handleUpload stagedState
          (.err (.blobBody (some { message := some "Bad rows", details := some ["row 3 invalid"] })))).finalState.error.message = m) ∧
     ((ErrJson.message { message := some "Bad rows", details := some ["row 3 invalid"] } = none ∨
       ErrJson.message { message := some "Bad rows", details := some ["row 3 invalid"] } = some "") →
        (handleUpload stagedState
          (.err (.blobBody (some { message := some "Bad rows", details := some ["row 3 invalid"] })))).finalState.error.message =
          "An error occurred during processing.") ∧
     (∀ l : List String,
        ErrJson.details { message := some "Bad rows", details := some ["row 3 invalid"] } = some l →
        (handleUpload stagedState
          (.err (.blobBody (some { message := some "Bad rows", details := some ["row 3 invalid"] })))).finalState.error.shownDetails = l) ∧
     (ErrJson.details { message := some "Bad rows", details := some ["row 3 invalid"] } = none →
        (handleUpload stagedState
          (.err (.blobBody (some { message := some "Bad rows", details := some ["row 3 invalid"] })))).finalState.error.shownDetails = [])) :=
  ⟨by decide,
   C6_structured_error_decode stagedState csvFile
     { message := some "Bad rows", details := some ["row 3 invalid"] } (by decide)⟩

/-- C7: every failing submission whose body is not a blob (including
network-level failures with no response) or whose blob body does not decode
to JSON ends with exactly the generic message and an empty rendered detail
list; handleUpload is a total function, so no exception escapes it. -/
theorem C7_generic_fallback (s : UploadState) (f : FileObj) (fd : FailureData)
    (hf : s.file = some f)
    (hfd : fd = .noBlobBody ∨ fd = .blobBody none) :
    ((handleUpload s (.err fd)).finalState.error.message = "An unexpected error occurred.") ∧
    ((handleUpload s (.err fd)).finalState.error.shownDetails = []) := by
  rcases hfd with rfl | rfl <;>
    simp [handleUpload, hf, clearMessages, decodeError, ErrorSig.shownDetails]

/-- C7 witness: instantiation at a 500-style blob body that is not valid
JSON. -/
theorem C7_generic_fallback_witness :
    stagedState.file = some csvFile ∧
    ((FailureData.blobBody none = .noBlobBody ∨
      FailureData.blobBody none = .blobBody none)) ∧
    (((handleUpload stagedState (.err (.blobBody none))).finalState.error.message =
        "An unexpected error occurred.") ∧
     ((handleUpload stagedState (.err (.blobBody none))).finalState.error.shownDetails = [])) :=
  ⟨by decide, by decide,
   C7_generic_fallback stagedState csvFile (.blobBody none) (by decide) (by decide)⟩

/-- C8: a 2xx response whose content-disposition header is absent, empty, or
does not match the filename pattern still succeeds: the download is triggered
under the default name processed_data.xlsx, the success message is set, and
no error is reported. -/
theorem C8_default_filename (s : UploadState) (f : FileObj)
    (h : SuccessHeaders) (hf : s.file = some f)
    (hcd : ∀ c, h.contentDisposition = some c → findFilenameMatch c.toList = none) :
    ((handleUpload s (.ok h)).download = some "processed_data.xlsx") ∧
    ((handleUpload s (.ok h)).finalState.successMessage =
      "File processed and download started!") ∧
    ((handleUpload s (.ok h)).finalState.error.message = "") := by
  have hex : extractFileName h.contentDisposition = "processed_data.xlsx" := by
    cases hc : h.contentDisposition with
    | none => simp [extractFileName]
    | some c =>
      have hm : findFilenameMatch c.data = none := hcd c hc
      by_cases hce : c = "" <;> simp [extractFileName, hce, hm]
  refine ⟨?_, ?_, ?_⟩ <;> simp [handleUpload, hf, clearMessages, hex]

/-- C8 witness: instantiation at a header without any filename parameter. -/
theorem C8_default_filename_witness :
    stagedState.file = some csvFile ∧
    (∀ c, (some "attachment" : Option String) = some c → findFilenameMatch c.toList = none) ∧
    (((handleUpload stagedState
        (.ok { contentType := "text/csv", contentDisposition := some "attachment" })).download =
      some "processed_data.xlsx") ∧
     ((handleUpload stagedState
        (.ok { contentType := "text/csv", contentDisposition := some "attachment" })).finalState.successMessage =
      "File processed and download started!") ∧
     ((handleUpload stagedState
        (.ok { contentType := "text/csv", contentDisposition := some "attachment" })).finalState.error.message =
      "")) :=
  ⟨by decide,
   fun c hc => by injection hc with h2; subst h2; decide,
   C8_default_filename stagedState csvFile
     { contentType := "text/csv", contentDisposition := some "attachment" }
     (by decide)
     (fun c hc => by injection hc with h2; subst h2; decide)⟩

/-- C10: from every reachable state with a staged candidate, a failing
submission of either failure shape leaves the Candidate File unchanged and
the success message as it was (empty, by the reachability invariant), ending
idle, so the same staged file can be resubmitted; a successful submission is
the upload path that clears the candidate. -/
theorem C10_failure_keeps_candidate (s : UploadState) (f : FileObj)
    (fd : FailureData) (hs : Reachable s) (hf : s.file = some f) :
    ((handleUpload s (.err fd)).finalState.file = some f) ∧
    ((handleUpload s (.err fd)).finalState.successMessage = s.successMessage) ∧
    ((handleUpload s (.err fd)).finalState.isUploading = false) ∧
    (∀ h : SuccessHeaders, (handleUpload s (.ok h)).finalState.file = none) := by
  have hsucc : s.successMessage = "" :=
    reachable_file_success_empty s hs (by simp [hf])
  refine ⟨?_, ?_, ?_, ?_⟩ <;> simp [handleUpload, hf, clearMessages, hsucc]

/-- C10 witness: instantiation at the staged CSV state, reachable in one
validation step from the initial state. -/
theorem C10_failure_keeps_candidate_witness :
    Reachable stagedState ∧ stagedState.file = some csvFile ∧
    (((handleUpload stagedState (.err (.blobBody none))).finalState.file = some csvFile) ∧
     ((handleUpload stagedState (.err (.blobBody none))).finalState.successMessage =
       stagedState.successMessage) ∧
     ((handleUpload stagedState (.err (.blobBody none))).finalState.isUploading = false) ∧
     (∀ h : SuccessHeaders, (handleUpload stagedState (.ok h)).finalState.file = none)) :=
  ⟨Reachable.validate initialState (some csvFile) Reachable.init,
   by decide,
   C10_failure_keeps_candidate stagedState csvFile (.blobBody none)
     (Reachable.validate initialState (some csvFile) Reachable.init) (by decide)⟩

end FileUpload
